import Mathlib

/-!
# ControlFlow core: shallow embedding and verification

A shallow embedding of the task state machine, dependency graph and
orchestrator scheduling logic of the ControlFlow repository
(`src/controlflow/tasks/task.py` and
`src/controlflow/orchestration/orchestrator.py`), together with theorems
settling the specification claims about it.

Python's mutable `Task` objects are modelled by a store mapping task ids
(natural numbers) to task records; object identity becomes id equality.
Methods that mutate state become functions from store to store, and methods
that can `raise` return `Except String`.
-/

namespace ControlFlow

/-- The `TaskStatus` enum from `task.py`. -/
inductive TaskStatus where
  | PENDING
  | RUNNING
  | SUCCESSFUL
  | FAILED
  | SKIPPED
deriving DecidableEq, Repr

/-- Source `INCOMPLETE_STATUSES = {PENDING, RUNNING}` from `task.py`. -/
def INCOMPLETE_STATUSES : List TaskStatus := [TaskStatus.PENDING, TaskStatus.RUNNING]

/-- Source `COMPLETE_STATUSES = {SUCCESSFUL, FAILED, SKIPPED}` from `task.py`. -/
def COMPLETE_STATUSES : List TaskStatus :=
  [TaskStatus.SUCCESSFUL, TaskStatus.FAILED, TaskStatus.SKIPPED]

/-- Method `Task.is_incomplete`: `self.status in INCOMPLETE_STATUSES`, as a predicate
on the status. -/
def is_incomplete (s : TaskStatus) : Bool := INCOMPLETE_STATUSES.contains s

/-- Method `Task.is_complete`: `self.status in COMPLETE_STATUSES`, as a predicate on
the status. -/
def is_complete (s : TaskStatus) : Bool := COMPLETE_STATUSES.contains s

/-- Python values that can appear as a task result (raw results, options in a
`result_type` tuple, failure reasons).  `Value.none` is Python's `None`. -/
inductive Value where
  | none
  | int (n : Int)
  | str (s : String)
deriving DecidableEq, Repr

/-- The `result_type` field of a task: `None` (no result expected), a tuple of
options, or some other type whose pydantic `TypeAdapter` coercion is modelled
as an external function `Value → Except String Value`. -/
inductive ResultType where
  | none
  | options (opts : List Value)
  | typed (coerce : Value → Except String Value)

/-- The fields of a `Task` object that the scheduling logic reads or writes.
`_subtasks`, `depends_on` and `_downstreams` are Python sets of task objects,
modelled as lists of task ids; `result_validator` is the optional custom
validation callable. -/
structure Task where
  status : TaskStatus
  parent : Option Nat
  subtasks : List Nat
  depends_on : List Nat
  downstreams : List Nat
  result : Value
  result_type : ResultType
  result_validator : Option (Value → Except String Value)

/-- The heap of task objects: object identity is the id. -/
def Store := Nat → Task

/-- Point update of one task object in the store. -/
def updateTask (st : Store) (t : Nat) (f : Task → Task) : Store :=
  fun i => if i = t then f (st i) else st i

/-- Python `set.add` on an identity set modelled as a list: no-op when the
element is already present. -/
def insertId (l : List Nat) (x : Nat) : List Nat :=
  if x ∈ l then l else l ++ [x]

/-- Method `Task.is_ready`: `self.is_incomplete() and all(t.is_complete() for t in
self.depends_on)`. -/
def is_ready (st : Store) (t : Nat) : Bool :=
  is_incomplete (st t).status && (st t).depends_on.all (fun d => is_complete (st d).status)

@[simp] theorem updateTask_same (st : Store) (t : Nat) (f : Task → Task) :
    updateTask st t f t = f (st t) := by
  simp [updateTask]

theorem updateTask_other (st : Store) (t i : Nat) (f : Task → Task) (h : i ≠ t) :
    updateTask st t f i = st i := by
  simp [updateTask, h]

theorem mem_insertId (l : List Nat) (x : Nat) : x ∈ insertId l x := by
  unfold insertId
  split
  · assumption
  · simp

/-- Whether a fallible call returned normally (`True`) or raised (`False`). -/
def exceptOk {ε α : Type} : Except ε α → Bool
  | Except.ok _ => true
  | Except.error _ => false

/-- Method `Task.set_status`: assigns the new status unconditionally (the TUI update is
external and ignored). -/
def set_status (st : Store) (t : Nat) (s : TaskStatus) : Store :=
  updateTask st t (fun tk => { tk with status := s })

/-- Method `Task.mark_running`: `self.set_status(TaskStatus.RUNNING)`. -/
def mark_running (st : Store) (t : Nat) : Store :=
  set_status st t TaskStatus.RUNNING

/-- Method `Task.mark_failed`: `self.result = reason; self.set_status(TaskStatus.FAILED)`. -/
def mark_failed (st : Store) (t : Nat) (reason : Value) : Store :=
  set_status (updateTask st t (fun tk => { tk with result := reason })) t TaskStatus.FAILED

/-- Method `Task.mark_skipped`: `self.set_status(TaskStatus.SKIPPED)`. -/
def mark_skipped (st : Store) (t : Nat) : Store :=
  set_status st t TaskStatus.SKIPPED

/-- Method `Task.validate_result`: rejects a non-null result when `result_type` is
`None`; requires membership when `result_type` is a tuple of options; otherwise
coerces via the (external) `TypeAdapter`; finally applies the optional custom
`result_validator`. -/
def validate_result (rt : ResultType) (rv : Option (Value → Except String Value))
    (raw : Value) : Except String Value :=
  let step : Except String Value :=
    match rt with
    | ResultType.none =>
        if raw ≠ Value.none then
          Except.error "Task has result_type=None, but a result was provided."
        else
          Except.ok raw
    | ResultType.options opts =>
        if raw ∈ opts then
          Except.ok raw
        else
          Except.error "Result is not in the list of valid result types"
    | ResultType.typed coerce => coerce raw
  match step with
  | Except.error e => Except.error e
  | Except.ok result =>
      match rv with
      | some f => f result
      | Option.none => Except.ok result

/-- Method `Task.mark_successful(result, validate_upstreams)`: when
`validate_upstreams`, raises if any dependency is incomplete, then if any
subtask is incomplete; then validates the raw result and, on success, commits
`self.result` and sets the status to `SUCCESSFUL`.  An error leaves the store
untouched, as the Python method raises before any mutation. -/
def mark_successful (st : Store) (t : Nat) (result : Value)
    (validate_upstreams : Bool) : Except String Store :=
  if validate_upstreams && (st t).depends_on.any (fun d => is_incomplete (st d).status) then
    Except.error "Task cannot be marked successful until all of its upstream dependencies are completed."
  else if validate_upstreams && (st t).subtasks.any (fun d => is_incomplete (st d).status) then
    Except.error "Task cannot be marked successful until all of its subtasks are completed."
  else
    match validate_result (st t).result_type (st t).result_validator result with
    | Except.error e => Except.error e
    | Except.ok r =>
        Except.ok (set_status (updateTask st t (fun tk => { tk with result := r })) t
          TaskStatus.SUCCESSFUL)

/-- The two edge insertions at the end of `Task.add_subtask`:
`self._subtasks.add(task); self.depends_on.add(task)`. -/
def addSubtaskEdges (st : Store) (self task : Nat) : Store :=
  updateTask st self (fun tk =>
    { tk with subtasks := insertId tk.subtasks task,
              depends_on := insertId tk.depends_on task })

/-- Method `Task.add_subtask(self, task)`: sets `task.parent = self` when unset, raises
when `task` already has a different parent, then records the subtask and
dependency edges on `self`. -/
def add_subtask (st : Store) (self task : Nat) : Except String Store :=
  match (st task).parent with
  | Option.none =>
      Except.ok (addSubtaskEdges
        (updateTask st task (fun tk => { tk with parent := some self })) self task)
  | some p =>
      if p = self then
        Except.ok (addSubtaskEdges st self task)
      else
        Except.error "already has a parent."

/-- Method `Task.add_dependency(self, task)`: `self.depends_on.add(task);
task._downstreams.add(self)`. -/
def add_dependency (st : Store) (self task : Nat) : Store :=
  updateTask
    (updateTask st self (fun tk => { tk with depends_on := insertId tk.depends_on task }))
    task (fun tk => { tk with downstreams := insertId tk.downstreams self })

/-- The `succeed` closure built by `Task.create_success_tool`: rejects when the
task is already successful; when `result_type` is a (non-empty) tuple of
options the argument must be a valid integer index, which is replaced by the
option at that index before calling `mark_successful`; otherwise the raw
argument is passed through to `mark_successful`. -/
def succeed (st : Store) (t : Nat) (result : Value) : Except String Store :=
  if (st t).status = TaskStatus.SUCCESSFUL then
    Except.error "is already marked successful."
  else
    match (st t).result_type with
    | ResultType.options opts =>
        if opts = [] then
          mark_successful st t result true
        else
          match result with
          | Value.int i =>
              if h : 0 ≤ i ∧ i.toNat < opts.length then
                mark_successful st t (opts.get ⟨i.toNat, h.2⟩) true
              else
                Except.error "Invalid option."
          | _ => Except.error "Invalid option."
    | _ => mark_successful st t result true

/-- An event as seen by `Orchestrator.handle_event`: an identity and the
`persist` flag. -/
structure Event where
  id : Nat
  persist : Bool

/-- One observable action of `Orchestrator.handle_event`: a synchronous
`handler.handle(event)` call (handlers identified by number), or
`flow.add_events([event])`. -/
inductive HandlerAction where
  | handle (handler : Nat) (eventId : Nat)
  | persistEvent (eventId : Nat)
deriving DecidableEq, Repr

/-- Method `Orchestrator.handle_event`: calls every registered handler in order, then
persists the event to the flow exactly when its `persist` flag is set.  The
returned list is the sequence of external actions performed, in order. -/
def handle_event (handlers : List Nat) (e : Event) : List HandlerAction :=
  handlers.map (fun h => HandlerAction.handle h e.id) ++
    (if e.persist then [HandlerAction.persistEvent e.id] else [])

/-- The orchestrator lifecycle signals emitted by `Orchestrator.run`
(`OrchestratorStart` / `OrchestratorError` / `OrchestratorEnd` events, each
passed to `handle_event`).  Exceptions are modelled by their message. -/
inductive OrchSignal where
  | sessionStart
  | sessionError (msg : String)
  | sessionEnd
deriving DecidableEq, Repr

/-- Python `try: body / except Exception as exc: <emit>; raise / finally:
<emit>` where the only effects of the handlers are emitted signals: returns the
emitted signals in order together with the outcome (`Except.error` = the
re-raised exception). -/
def tryExceptReraiseFinally (body : Except String Unit)
    (onError : String → List OrchSignal) (finSignals : List OrchSignal) :
    List OrchSignal × Except String Unit :=
  match body with
  | Except.ok _ => (finSignals, Except.ok ())
  | Except.error e => (onError e ++ finSignals, Except.error e)

/-- Method `Orchestrator.run`: emits `OrchestratorStart`, runs the turn loop (whose
outcome — normal completion or an unhandled exception — is abstracted as the
`loopOutcome` argument), emits `OrchestratorError` and re-raises on an
exception, and emits `OrchestratorEnd` in a `finally` block. -/
def orchestratorRun (loopOutcome : Except String Unit) :
    List OrchSignal × Except String Unit :=
  let rest := tryExceptReraiseFinally loopOutcome
    (fun e => [OrchSignal.sessionError e]) [OrchSignal.sessionEnd]
  (OrchSignal.sessionStart :: rest.1, rest.2)

/-- Method `Orchestrator.get_available_agents`:
`list(set(a for t in active_tasks for a in t.get_agents()) | {self.agent})`.
Agents are identified by number; `activeAgentSets` is the list of
`t.get_agents()` results over the active tasks. -/
def get_available_agents (activeAgentSets : List (List Nat)) (current : Nat) : List Nat :=
  (activeAgentSets.flatten ++ [current]).dedup

/-- The `run_turn` exit condition `self.agent not in self.get_available_agents()`
(orchestrator.py line 123), as a Boolean. -/
def agent_unavailable_condition (activeAgentSets : List (List Nat)) (current : Nat) : Bool :=
  !(get_available_agents activeAgentSets current).contains current

/-- The keyword parameters accepted by `Orchestrator.run` in the source:
`def run(self):` — none. -/
def orchestratorRunKeywordParams : List String := []

/-- The keyword arguments `Task.run` forwards in
`orchestrator.run(max_calls_per_turn=..., max_turns=...)`. -/
def taskRunForwardedKeywords : List String := ["max_calls_per_turn", "max_turns"]

/-- Python keyword-call semantics: a call binds without a `TypeError` exactly
when every supplied keyword names a declared parameter. -/
def pythonKwCallOk (params kwargs : List String) : Bool :=
  kwargs.all (fun k => params.contains k)

/-- The semantic content hashed by `Task._generate_id`: the `objective`,
`instructions`, `str(result_type)`, `prompt` and `str(context)` fields
(`result_type` and `context` enter the hash through their string
representations). -/
structure TaskIdContent where
  objective : String
  instructions : Option String
  resultTypeRepr : String
  prompt : Option String
  contextRepr : String

/-- The derived task id: the digest of the hashed tuple. -/
structure DerivedId where
  typeName : String
  objective : String
  instructions : Option String
  resultTypeRepr : String
  prompt : Option String
  contextRepr : String
deriving DecidableEq, Repr

/-- Modelled from the spec: `hash_objects` (defined in
`controlflow/utilities/general.py`, which is not part of the provided source)
"deterministically derives" an id from the tuple of semantic content.  It is
modelled as an injective deterministic function of that tuple — a
collision-free digest. -/
def hash_objects (typeName : String) (c : TaskIdContent) : DerivedId :=
  { typeName := typeName
    objective := c.objective
    instructions := c.instructions
    resultTypeRepr := c.resultTypeRepr
    prompt := c.prompt
    contextRepr := c.contextRepr }

/-- Method `Task._generate_id`: `hash_objects((type(self).__name__, self.objective,
self.instructions, str(self.result_type), self.prompt, str(self.context)))`. -/
def generate_id (c : TaskIdContent) : DerivedId :=
  hash_objects "Task" c

theorem all_map_eq {α β : Type} (l : List α) (f : α → β) (p : β → Bool) :
    (l.map f).all p = l.all (fun x => p (f x)) := by
  induction l with
  | nil => rfl
  | cons a l ih => simp [ih]

/-- Lemma: `is_ready` rewritten as a function of the task's own status and the list of
its dependencies' statuses only. -/
theorem is_ready_eq_of_projections (st : Store) (t : Nat) :
    is_ready st t =
      (is_incomplete (st t).status &&
        ((st t).depends_on.map (fun d => (st d).status)).all is_complete) := by
  rw [is_ready, all_map_eq]

theorem is_incomplete_iff (s : TaskStatus) :
    is_incomplete s = true ↔ (s = TaskStatus.PENDING ∨ s = TaskStatus.RUNNING) := by
  cases s <;> decide

theorem is_complete_iff (s : TaskStatus) :
    is_complete s = true ↔
      (s = TaskStatus.SUCCESSFUL ∨ s = TaskStatus.FAILED ∨ s = TaskStatus.SKIPPED) := by
  cases s <;> decide

/-- A task that is `PENDING` with no edges, no expected result and no custom
validator; concrete stores below are built from it by record update. -/
def defTask : Task :=
  ⟨TaskStatus.PENDING, Option.none, [], [], [], Value.none, ResultType.none, Option.none⟩

/-- Claim C1: `is_ready(t)` holds iff `t`'s status is incomplete (PENDING or
RUNNING) and every task in `t.depends_on` has a terminal status (SUCCESSFUL,
FAILED or SKIPPED); moreover the result depends on no field other than the
task's status and the statuses of its `depends_on` entries. -/
theorem is_ready_spec (st : Store) (t : Nat) :
    (is_ready st t = true ↔
      (((st t).status = TaskStatus.PENDING ∨ (st t).status = TaskStatus.RUNNING) ∧
        ∀ d ∈ (st t).depends_on,
          (st d).status = TaskStatus.SUCCESSFUL ∨ (st d).status = TaskStatus.FAILED ∨
            (st d).status = TaskStatus.SKIPPED)) ∧
    (∀ (st2 : Store) (t2 : Nat),
      (st2 t2).status = (st t).status →
      (st2 t2).depends_on.map (fun d => (st2 d).status) =
        (st t).depends_on.map (fun d => (st d).status) →
      is_ready st2 t2 = is_ready st t) := by
  constructor
  · rw [is_ready]
    simp only [Bool.and_eq_true, List.all_eq_true, is_incomplete_iff, is_complete_iff]
  · intro st2 t2 hs hd
    rw [is_ready_eq_of_projections, is_ready_eq_of_projections, hs, hd]

/-- Concrete store for the C1 witness: task 0 is PENDING and depends on task 1,
which is SUCCESSFUL; every other id is an untouched pending task. -/
def c1Store : Store := fun i =>
  if i = 0 then { defTask with depends_on := [1] }
  else if i = 1 then { defTask with status := TaskStatus.SUCCESSFUL }
  else defTask

/-- A second store for the C1 witness whose task 7 agrees with `c1Store`'s
task 0 on status and dependency statuses but differs on every other field. -/
def c1StoreB : Store := fun i =>
  if i = 7 then
    { defTask with
        depends_on := [2], subtasks := [3], parent := some 9,
        result := Value.str "other" }
  else if i = 2 then { defTask with status := TaskStatus.SUCCESSFUL, depends_on := [7] }
  else defTask

theorem is_ready_spec_witness :
    is_ready c1StoreB 7 = is_ready c1Store 0 ∧ is_ready c1Store 0 = true := by
  refine ⟨(is_ready_spec c1Store 0).2 c1StoreB 7 (by decide) (by decide), ?_⟩
  decide

/-- Concrete store refuting claim C2 as stated: task 0 has no dependencies, no
subtasks and `result_type=None`. -/
def c2Store : Store := fun _ => defTask

/-- Claim C2 counterexample: task 0 of `c2Store` has every dependency and
subtask complete (both sets are empty), yet `mark_successful` with the default
`validate_upstreams=True` raises rather than succeeding, because the supplied
non-null result fails result validation against `result_type=None`. -/
theorem mark_successful_c2_counterexample :
    (c2Store 0).depends_on = [] ∧ (c2Store 0).subtasks = [] ∧
    exceptOk (mark_successful c2Store 0 (Value.str "hello") true) = false :=
  ⟨rfl, rfl, rfl⟩

/-- Claim C2 (amended): `mark_successful(t, result)` with default
`validate_upstreams=True` raises (leaving `t` unchanged) if any dependency or
subtask of `t` is incomplete; otherwise it raises exactly when result
validation of the supplied result fails, and whenever it returns normally the
status of `t` is `SUCCESSFUL` afterwards. -/
theorem mark_successful_spec (st : Store) (t : Nat) (result : Value) :
    (((∃ d ∈ (st t).depends_on, is_incomplete (st d).status = true) ∨
      (∃ s ∈ (st t).subtasks, is_incomplete (st s).status = true)) →
      exceptOk (mark_successful st t result true) = false) ∧
    ((∀ d ∈ (st t).depends_on, is_incomplete (st d).status = false) →
     (∀ s ∈ (st t).subtasks, is_incomplete (st s).status = false) →
      (exceptOk (mark_successful st t result true) =
        exceptOk (validate_result (st t).result_type (st t).result_validator result)) ∧
      (∀ st2, mark_successful st t result true = Except.ok st2 →
        (st2 t).status = TaskStatus.SUCCESSFUL)) := by
  constructor
  · intro hbad
    rcases hbad with ⟨d, hd, hp⟩ | ⟨s, hs, hp⟩
    · have hD : ((st t).depends_on.any fun d => is_incomplete (st d).status) = true :=
        List.any_eq_true.mpr ⟨d, hd, hp⟩
      simp [mark_successful, hD, exceptOk]
    · by_cases hD : ((st t).depends_on.any fun d => is_incomplete (st d).status) = true
      · simp [mark_successful, hD, exceptOk]
      · have hS : ((st t).subtasks.any fun s => is_incomplete (st s).status) = true :=
          List.any_eq_true.mpr ⟨s, hs, hp⟩
        simp [mark_successful, hD, hS, exceptOk]
  · intro hdeps hsubs
    have hD : ((st t).depends_on.any fun d => is_incomplete (st d).status) = false := by
      rw [Bool.eq_false_iff]
      intro hc
      obtain ⟨d, hd, hp⟩ := List.any_eq_true.mp hc
      rw [hdeps d hd] at hp
      exact Bool.false_ne_true hp
    have hS : ((st t).subtasks.any fun s => is_incomplete (st s).status) = false := by
      rw [Bool.eq_false_iff]
      intro hc
      obtain ⟨s, hs, hp⟩ := List.any_eq_true.mp hc
      rw [hsubs s hs] at hp
      exact Bool.false_ne_true hp
    constructor
    · cases hv : validate_result (st t).result_type (st t).result_validator result with
      | ok r => simp [mark_successful, hD, hS, hv, exceptOk]
      | error e => simp [mark_successful, hD, hS, hv, exceptOk]
    · intro st2 hok
      cases hv : validate_result (st t).result_type (st t).result_validator result with
      | ok r =>
          simp [mark_successful, hD, hS, hv] at hok
          rw [← hok]
          simp [set_status]
      | error e => simp [mark_successful, hD, hS, hv] at hok

/-- Store for the C2 witness: task 0 depends on task 1 (still PENDING); task 10
has a SUCCESSFUL dependency and `result_type=None`. -/
def c2wStore : Store := fun i =>
  if i = 0 then { defTask with depends_on := [1] }
  else if i = 10 then { defTask with depends_on := [11] }
  else if i = 11 then { defTask with status := TaskStatus.SUCCESSFUL }
  else defTask

theorem mark_successful_spec_witness :
    exceptOk (mark_successful c2wStore 0 Value.none true) = false ∧
    exceptOk (mark_successful c2wStore 10 Value.none true) =
      exceptOk (validate_result (c2wStore 10).result_type
        (c2wStore 10).result_validator Value.none) :=
  ⟨(mark_successful_spec c2wStore 0 Value.none).1 (Or.inl ⟨1, by decide, by decide⟩),
   ((mark_successful_spec c2wStore 10 Value.none).2 (by decide) (by decide)).1⟩

/-- Concrete store refuting claim C3: task 0 is already SUCCESSFUL. -/
def c3Store : Store := fun _ => { defTask with status := TaskStatus.SUCCESSFUL }

/-- Claim C3 counterexample: task 0 of `c3Store` has the terminal status
SUCCESSFUL, yet `mark_running` neither no-ops nor rejects: it silently moves
the task back to RUNNING, transitioning it out of a terminal status. -/
theorem terminal_immutability_counterexample :
    is_complete (c3Store 0).status = true ∧
    ((mark_running c3Store 0) 0).status = TaskStatus.RUNNING ∧
    ((mark_running c3Store 0) 0).status ≠ (c3Store 0).status :=
  ⟨rfl, rfl, by decide⟩

/-- Claim C3 (amended): the status-transition operations do not guard on the
task's current status — `mark_running`, `mark_failed` and `mark_skipped`
unconditionally overwrite it with their target status (and `mark_successful`
overwrites it whenever its upstream and result validation pass), so a task with
a terminal status is moved out of it by `mark_running`; only the agent-facing
success tool rejects an already-successful task. -/
theorem status_transitions_unguarded (st : Store) (t : Nat) (reason : Value) :
    ((mark_running st t) t).status = TaskStatus.RUNNING ∧
    ((mark_failed st t reason) t).status = TaskStatus.FAILED ∧
    ((mark_skipped st t) t).status = TaskStatus.SKIPPED ∧
    (is_complete (st t).status = true →
      ((mark_running st t) t).status ≠ (st t).status) ∧
    ((st t).status = TaskStatus.SUCCESSFUL →
      exceptOk (succeed st t Value.none) = false) := by
  refine ⟨by simp [mark_running, set_status], by simp [mark_failed, set_status, updateTask],
    by simp [mark_skipped, set_status], ?_, ?_⟩
  · intro hc
    have := is_complete_iff (st t).status |>.mp hc
    simp only [mark_running, set_status, updateTask_same]
    rcases this with h | h | h <;> rw [h] <;> decide
  · intro hs
    simp [succeed, hs, exceptOk]

/-- Store for the C3 witness: task 0 is FAILED. -/
def c3wStore : Store := fun _ => { defTask with status := TaskStatus.FAILED }

theorem status_transitions_unguarded_witness :
    ((mark_running c3wStore 0) 0).status = TaskStatus.RUNNING ∧
    ((mark_running c3wStore 0) 0).status ≠ (c3wStore 0).status :=
  ⟨(status_transitions_unguarded c3wStore 0 Value.none).1,
   (status_transitions_unguarded c3wStore 0 Value.none).2.2.2.1 (by decide)⟩

/-- Claim C4: result validation on success. (i) A task with `result_type=None`
rejects any non-null raw result. (ii) With a finite option set, a raw result
outside the set is rejected, and a member passes through unchanged (absent a
custom validator). (iii) When the agent supplies a valid option index through
the task's success tool, the committed result is the option at that index, not
the raw index, and the task ends SUCCESSFUL. -/
theorem validate_result_policy (st : Store) (t : Nat) :
    (∀ (rv : Option (Value → Except String Value)) (raw : Value), raw ≠ Value.none →
      exceptOk (validate_result ResultType.none rv raw) = false) ∧
    (∀ (opts : List Value) (rv : Option (Value → Except String Value)) (raw : Value),
      raw ∉ opts → exceptOk (validate_result (ResultType.options opts) rv raw) = false) ∧
    (∀ (opts : List Value) (raw : Value), raw ∈ opts →
      validate_result (ResultType.options opts) Option.none raw = Except.ok raw) ∧
    (∀ (opts : List Value) (i : Nat) (hi : i < opts.length),
      (st t).result_type = ResultType.options opts →
      (st t).result_validator = Option.none →
      (st t).status ≠ TaskStatus.SUCCESSFUL →
      (∀ d ∈ (st t).depends_on, is_incomplete (st d).status = false) →
      (∀ s ∈ (st t).subtasks, is_incomplete (st s).status = false) →
      ∃ st2, succeed st t (Value.int (Int.ofNat i)) = Except.ok st2 ∧
        (st2 t).result = opts.get ⟨i, hi⟩ ∧
        (st2 t).status = TaskStatus.SUCCESSFUL) := by
  refine ⟨?_, ?_, ?_, ?_⟩
  · intro rv raw hraw
    simp [validate_result, hraw, exceptOk]
  · intro opts rv raw hraw
    simp [validate_result, hraw, exceptOk]
  · intro opts raw hraw
    simp [validate_result, hraw]
  · intro opts i hi hrt hrv hstat hdeps hsubs
    have hD : ((st t).depends_on.any fun d => is_incomplete (st d).status) = false := by
      rw [Bool.eq_false_iff]
      intro hc
      obtain ⟨d, hd, hp⟩ := List.any_eq_true.mp hc
      rw [hdeps d hd] at hp
      exact Bool.false_ne_true hp
    have hS : ((st t).subtasks.any fun s => is_incomplete (st s).status) = false := by
      rw [Bool.eq_false_iff]
      intro hc
      obtain ⟨s, hs, hp⟩ := List.any_eq_true.mp hc
      rw [hsubs s hs] at hp
      exact Bool.false_ne_true hp
    have hne : ¬ opts = [] := by
      intro h
      rw [h] at hi
      exact Nat.not_lt_zero i hi
    have hcond : 0 ≤ (Int.ofNat i) ∧ (Int.ofNat i).toNat < opts.length :=
      ⟨Int.ofNat_nonneg i, by simpa using hi⟩
    have hget : opts.get ⟨(Int.ofNat i).toNat, hcond.2⟩ = opts.get ⟨i, hi⟩ := rfl
    have hmem : opts.get ⟨i, hi⟩ ∈ opts := List.get_mem opts i hi
    refine ⟨set_status (updateTask st t
        (fun tk => { tk with result := opts.get ⟨i, hi⟩ })) t TaskStatus.SUCCESSFUL,
      ?_, ?_, ?_⟩
    · simp only [succeed, hrt, if_neg hstat, if_neg hne, dif_pos hcond, hget]
      simp only [mark_successful, hD, hS, Bool.and_false, Bool.false_eq_true, if_false,
        hrt, hrv, validate_result, if_pos hmem]
    · simp [set_status, updateTask]
    · simp [set_status, updateTask]

/-- Store for the C4 witness: task 0 offers three fixed options as its
`result_type`, has no dependencies or subtasks, and is PENDING. -/
def c4Store : Store := fun _ =>
  { defTask with
      result_type := ResultType.options [Value.str "red", Value.str "green", Value.str "blue"] }

theorem validate_result_policy_witness :
    ∃ st2, succeed c4Store 0 (Value.int 1) = Except.ok st2 ∧
      (st2 0).result = Value.str "green" ∧
      (st2 0).status = TaskStatus.SUCCESSFUL :=
  (validate_result_policy c4Store 0).2.2.2
    [Value.str "red", Value.str "green", Value.str "blue"] 1 (by decide)
    rfl rfl (by decide) (by decide) (by decide)

theorem addSubtaskEdges_parent (st : Store) (p c i : Nat) :
    ((addSubtaskEdges st p c) i).parent = (st i).parent := by
  unfold addSubtaskEdges updateTask
  split <;> rfl

theorem addSubtaskEdges_self (st : Store) (p c : Nat) :
    (addSubtaskEdges st p c) p =
      { st p with subtasks := insertId (st p).subtasks c,
                  depends_on := insertId (st p).depends_on c } := by
  unfold addSubtaskEdges
  exact updateTask_same st p _

/-- Claim C5: `add_subtask(parent, child)` sets the child's parent when unset;
succeeds idempotently when the child's parent is already this parent; raises
when the child already has a different parent; and in every non-error case
leaves the child's parent equal to this parent and records the child in the
parent's `_subtasks` and `depends_on` sets. -/
theorem add_subtask_spec (st : Store) (p c : Nat) :
    ((st c).parent = Option.none →
      ∃ st2, add_subtask st p c = Except.ok st2 ∧ (st2 c).parent = some p ∧
        c ∈ (st2 p).subtasks ∧ c ∈ (st2 p).depends_on) ∧
    ((st c).parent = some p →
      ∃ st2, add_subtask st p c = Except.ok st2 ∧ (st2 c).parent = some p ∧
        c ∈ (st2 p).subtasks ∧ c ∈ (st2 p).depends_on) ∧
    (∀ q, (st c).parent = some q → q ≠ p →
      exceptOk (add_subtask st p c) = false) := by
  refine ⟨?_, ?_, ?_⟩
  · intro hp
    refine ⟨addSubtaskEdges
      (updateTask st c (fun tk => { tk with parent := some p })) p c, ?_, ?_, ?_, ?_⟩
    · simp only [add_subtask, hp]
    · rw [addSubtaskEdges_parent]
      simp [updateTask]
    · rw [addSubtaskEdges_self]
      exact mem_insertId _ c
    · rw [addSubtaskEdges_self]
      exact mem_insertId _ c
  · intro hp
    refine ⟨addSubtaskEdges st p c, ?_, ?_, ?_, ?_⟩
    · simp [add_subtask, hp]
    · rw [addSubtaskEdges_parent]
      exact hp
    · rw [addSubtaskEdges_self]
      exact mem_insertId _ c
    · rw [addSubtaskEdges_self]
      exact mem_insertId _ c
  · intro q hq hqp
    simp [add_subtask, hq, hqp, exceptOk]

/-- Store for the C5 witness: task 1 has no parent; task 2's parent is task 9. -/
def c5Store : Store := fun i =>
  if i = 2 then { defTask with parent := some 9 }
  else defTask

theorem add_subtask_spec_witness :
    (∃ st2, add_subtask c5Store 0 1 = Except.ok st2 ∧ (st2 1).parent = some 0 ∧
      1 ∈ (st2 0).subtasks ∧ 1 ∈ (st2 0).depends_on) ∧
    exceptOk (add_subtask c5Store 0 2) = false :=
  ⟨(add_subtask_spec c5Store 0 1).1 (by decide),
   (add_subtask_spec c5Store 0 2).2.2 9 (by decide) (by decide)⟩

/-- Claim C6: every execution of `Orchestrator.run` emits the session-end
signal exactly once, whether the turn loop completes normally or raises; on an
unhandled loop error the error signal is emitted (before the session-end
signal) and the exception is re-raised to the caller. -/
theorem run_session_signals (loopOutcome : Except String Unit) :
    ((orchestratorRun loopOutcome).1.count OrchSignal.sessionEnd = 1) ∧
    (∀ e, loopOutcome = Except.error e →
      (orchestratorRun loopOutcome).1 =
        [OrchSignal.sessionStart, OrchSignal.sessionError e, OrchSignal.sessionEnd] ∧
      (orchestratorRun loopOutcome).2 = Except.error e) ∧
    (loopOutcome = Except.ok () →
      (orchestratorRun loopOutcome).1 = [OrchSignal.sessionStart, OrchSignal.sessionEnd] ∧
      (orchestratorRun loopOutcome).2 = Except.ok ()) := by
  cases loopOutcome with
  | ok u =>
      refine ⟨?_, ?_, ?_⟩
      · rfl
      · intro e he
        exact absurd he (by simp)
      · intro h
        exact ⟨rfl, rfl⟩
  | error e0 =>
      refine ⟨?_, ?_, ?_⟩
      · simp [orchestratorRun, tryExceptReraiseFinally, List.count_cons]
      · intro e he
        have : e0 = e := by injection he
        subst this
        exact ⟨rfl, rfl⟩
      · intro h
        exact absurd h (by simp)

theorem run_session_signals_witness :
    (orchestratorRun (Except.error "transport failure")).1 =
      [OrchSignal.sessionStart, OrchSignal.sessionError "transport failure",
        OrchSignal.sessionEnd] ∧
    (orchestratorRun (Except.error "transport failure")).2 =
      Except.error "transport failure" :=
  (run_session_signals (Except.error "transport failure")).2.1 "transport failure" rfl

/-- Claim C7: the code evaluated at the failing call — `Orchestrator.run`
declares no keyword parameters, yet `Task.run` forwards `max_calls_per_turn`
and `max_turns` to it, so under Python's keyword-call semantics the call cannot
bind (it raises `TypeError`); the limits bound nothing. -/
theorem run_limit_kwargs_rejected :
    pythonKwCallOk orchestratorRunKeywordParams taskRunForwardedKeywords = false := rfl

/-- Claim C8: `Orchestrator.handle_event` invokes every registered handler
synchronously in registration order (the i-th action is the i-th handler's
`handle` call), persists the event to the flow's log iff its `persist` flag is
set, and any persistence action comes only after all handler invocations. -/
theorem handle_event_spec (handlers : List Nat) (e : Event) :
    (∀ (i : Nat) (hi : i < handlers.length),
      (handle_event handlers e)[i]? =
        some (HandlerAction.handle (handlers.get ⟨i, hi⟩) e.id)) ∧
    ((HandlerAction.persistEvent e.id ∈ handle_event handlers e) ↔ e.persist = true) ∧
    (∀ (i : Nat) (x : Nat),
      (handle_event handlers e)[i]? = some (HandlerAction.persistEvent x) →
      handlers.length ≤ i) := by
  refine ⟨?_, ?_, ?_⟩
  · intro i hi
    rw [handle_event, List.getElem?_append_left (by simpa using hi), List.getElem?_map,
      List.getElem?_eq_getElem hi]
    rfl
  · cases hp : e.persist <;> simp [handle_event, hp]
  · intro i x hx
    by_contra hlt
    push_neg at hlt
    rw [handle_event, List.getElem?_append_left (by simpa using hlt), List.getElem?_map,
      List.getElem?_eq_getElem hlt] at hx
    simp at hx

/-- Concrete handlers and event for the C8 witness. -/
def c8Handlers : List Nat := [4, 5, 6]

theorem handle_event_spec_witness :
    (handle_event c8Handlers ⟨42, true⟩)[1]? = some (HandlerAction.handle 5 42) ∧
    (HandlerAction.persistEvent 42 ∈ handle_event c8Handlers ⟨42, true⟩) ∧
    ((handle_event c8Handlers ⟨42, true⟩)[3]? = some (HandlerAction.persistEvent 42) →
      c8Handlers.length ≤ 3) :=
  ⟨(handle_event_spec c8Handlers ⟨42, true⟩).1 1 (by decide),
   (handle_event_spec c8Handlers ⟨42, true⟩).2.1.mpr rfl,
   fun h => (handle_event_spec c8Handlers ⟨42, true⟩).2.2 3 42 h⟩

/-- Claim C9: the derived task id is a deterministic function of the objective,
instructions, result-type descriptor, prompt and context — identical fields
give identical ids — and changing any single one of those fields changes the
id. -/
theorem generate_id_spec (c1 c2 : TaskIdContent) :
    ((c1.objective = c2.objective → c1.instructions = c2.instructions →
      c1.resultTypeRepr = c2.resultTypeRepr → c1.prompt = c2.prompt →
      c1.contextRepr = c2.contextRepr → generate_id c1 = generate_id c2)) ∧
    (c1.objective ≠ c2.objective → generate_id c1 ≠ generate_id c2) ∧
    (c1.instructions ≠ c2.instructions → generate_id c1 ≠ generate_id c2) ∧
    (c1.resultTypeRepr ≠ c2.resultTypeRepr → generate_id c1 ≠ generate_id c2) ∧
    (c1.prompt ≠ c2.prompt → generate_id c1 ≠ generate_id c2) ∧
    (c1.contextRepr ≠ c2.contextRepr → generate_id c1 ≠ generate_id c2) := by
  refine ⟨?_, ?_, ?_, ?_, ?_, ?_⟩
  · intro h1 h2 h3 h4 h5
    simp only [generate_id, hash_objects, DerivedId.mk.injEq]
    exact ⟨trivial, h1, h2, h3, h4, h5⟩
  · exact fun h hc => h (congrArg DerivedId.objective hc)
  · exact fun h hc => h (congrArg DerivedId.instructions hc)
  · exact fun h hc => h (congrArg DerivedId.resultTypeRepr hc)
  · exact fun h hc => h (congrArg DerivedId.prompt hc)
  · exact fun h hc => h (congrArg DerivedId.contextRepr hc)

theorem generate_id_spec_witness :
    generate_id ⟨"write a poem", Option.none, "str", Option.none, "dict"⟩ =
      generate_id ⟨"write a poem", Option.none, "str", Option.none, "dict"⟩ ∧
    generate_id ⟨"write a poem", Option.none, "str", Option.none, "dict"⟩ ≠
      generate_id ⟨"write an essay", Option.none, "str", Option.none, "dict"⟩ :=
  ⟨(generate_id_spec ⟨"write a poem", Option.none, "str", Option.none, "dict"⟩
      ⟨"write a poem", Option.none, "str", Option.none, "dict"⟩).1 rfl rfl rfl rfl rfl,
   (generate_id_spec ⟨"write a poem", Option.none, "str", Option.none, "dict"⟩
      ⟨"write an essay", Option.none, "str", Option.none, "dict"⟩).2.1 (by decide)⟩

/-- Claim C10: `Orchestrator.get_available_agents` always contains the current
agent — it is unioned in unconditionally, whatever the active tasks' agent
assignments are — so the `run_turn` exit condition
`self.agent not in self.get_available_agents()` is never true. -/
theorem current_agent_always_available (activeAgentSets : List (List Nat)) (current : Nat) :
    current ∈ get_available_agents activeAgentSets current ∧
    agent_unavailable_condition activeAgentSets current = false := by
  have hmem : current ∈ get_available_agents activeAgentSets current := by
    rw [get_available_agents, List.mem_dedup]
    exact List.mem_append_right _ (List.mem_singleton.mpr rfl)
  refine ⟨hmem, ?_⟩
  simp [agent_unavailable_condition, hmem]

end ControlFlow
